import Mathlib

/-!
Shallow embedding of the `SpotifyAuth` class (OAuth2-with-PKCE credential
lifecycle manager) of the music-mcp repository, together with proofs of the
specified properties of its operations.

Modelling conventions:
* The two persisted files (`~/.spotify-mcp-tokens.json` and
  `~/.spotify-mcp-temp.json`) are a `Store` with two `FileContent` slots;
  clearing writes an empty file (`FileContent.empty`), and loading treats an
  absent or empty file as "no record", exactly as the source does
  (`data ? JSON.parse(data) : null`).
* Timestamps (`Date.now()`, `expires_at`) and `expires_in` are `Int`,
  mirroring JavaScript number arithmetic on integral values.
* Each possible `try/catch` failure site takes an explicit `Bool` oracle
  ("does this filesystem call throw?"); each network POST takes an
  `Option TokenResponse` oracle (`none` = transport/remote failure).
* Every operation returns its result, the new store, and the list of network
  calls it issued, so that "no network I/O" and "exactly one refresh call"
  are statable.
* `getValidAccessToken` is factored into `gvatStep1` (the synchronous part up
  to the `await this.refreshToken(...)` suspension point) and `gvatResume`
  (the refresh call and the re-load), so that interleavings of two concurrent
  callers can be analysed; the sequential operation is the composition.
-/

namespace MusicMcp

/-- The persisted credential record (`interface TokenData` in the source). -/
structure TokenData where
  access_token : String
  refresh_token : Option String
  expires_at : Int
  scope : String
deriving Repr, DecidableEq

/-- The transient handshake record written by `saveTemporaryData`:
`{ state, codeVerifier }`. -/
structure TempData where
  state : String
  codeVerifier : String
deriving Repr, DecidableEq

/-- Content of one of the two JSON files: missing, truncated-to-empty, or
holding a parsed record. -/
inductive FileContent (α : Type) where
  | absent
  | empty
  | stored (a : α)
deriving Repr, DecidableEq

/-- What `readFileSync` + `data ? JSON.parse(data) : null` yields: a record
only when the file exists and is non-empty. -/
def FileContent.load {α : Type} : FileContent α → Option α
  | .stored a => some a
  | _ => none

/-- The on-disk state owned by the manager: the credential file
(`this.tokenPath`) and the handshake file (`.spotify-mcp-temp.json`). -/
structure Store where
  tokenFile : FileContent TokenData
  tempFile : FileContent TempData
deriving Repr, DecidableEq

/-- A network POST issued to the token endpoint. -/
inductive NetCall where
  | refresh
  | exchange
deriving Repr, DecidableEq

/-- The distinct `throw new Error(...)` sites of `SpotifyAuth` (plus the
runtime null-dereference that `this.loadTokens()!` would produce). -/
inductive AuthError where
  /-- `'Invalid state parameter'` -/
  | invalidState
  /-- `'Failed to exchange authorization code for tokens'` -/
  | tokenExchangeFailed
  /-- `'No tokens available. Please authorize first.'` -/
  | noTokens
  /-- `'Access token expired and no refresh token available. Please re-authorize.'` -/
  | reauthRequired
  /-- `'Failed to refresh access token. Please re-authorize.'` -/
  | refreshFailed
  /-- `'Failed to save authentication tokens'` -/
  | saveTokensFailed
  /-- runtime TypeError from `this.loadTokens()!.access_token` on `null` -/
  | nullDeref
deriving Repr, DecidableEq

/-- Body of a successful token-endpoint response (`response.data`). -/
structure TokenResponse where
  access_token : String
  refresh_token : Option String
  expires_in : Int
  scope : String
deriving Repr, DecidableEq

/-- JavaScript `x || fallback` on an optional string: `undefined` and the
empty string are falsy. -/
def jsOrElse (x : Option String) (fallback : String) : String :=
  match x with
  | none => fallback
  | some v => if v = "" then fallback else v

/-- `loadTokens()`: returns `null` when the file is absent or empty, and —
because the whole body is wrapped in `try/catch` returning `null` — also
when the read or parse throws (`readFails = true`). -/
def loadTokens (readFails : Bool) (s : Store) : Option TokenData :=
  if readFails then none else s.tokenFile.load

/-- `saveTokens(tokenData)`: writes the record, rethrowing a write error as
`'Failed to save authentication tokens'`. -/
def saveTokens (writeFails : Bool) (t : TokenData) (s : Store) :
    Except AuthError Store :=
  if writeFails then .error .saveTokensFailed
  else .ok { s with tokenFile := .stored t }

/-- `clearTokens()`: truncates the credential file to empty if it exists;
any error is caught and logged, never surfaced. -/
def clearTokens (writeFails : Bool) (s : Store) : Store :=
  match s.tokenFile with
  | .absent => s
  | _ => if writeFails then s else { s with tokenFile := .empty }

/-- `saveTemporaryData(data)`: writes the handshake file; any error is
caught and logged, never surfaced. -/
def saveTemporaryData (writeFails : Bool) (d : TempData) (s : Store) : Store :=
  if writeFails then s else { s with tempFile := .stored d }

/-- `loadTemporaryData()`: like `loadTokens` but for the handshake file. -/
def loadTemporaryData (readFails : Bool) (s : Store) : Option TempData :=
  if readFails then none else s.tempFile.load

/-- `clearTemporaryData()`: truncates the handshake file to empty if it
exists; any error is caught and logged, never surfaced. -/
def clearTemporaryData (writeFails : Bool) (s : Store) : Store :=
  match s.tempFile with
  | .absent => s
  | _ => if writeFails then s else { s with tempFile := .empty }

/-- `isAuthenticated()`: `this.loadTokens() !== null`. -/
def isAuthenticated (readFails : Bool) (s : Store) : Bool :=
  (loadTokens readFails s).isSome

/-- `refreshToken(refreshToken)`: one POST with grant type `refresh_token`;
on success builds the renewed record (keeping the old refresh token when the
response carries none) and saves it; any failure — transport or save — is
rethrown as `'Failed to refresh access token'`. -/
def refreshTokenOp (now : Int) (resp : Option TokenResponse)
    (saveFails : Bool) (rt : String) (s : Store) :
    Except AuthError Unit × Store × List NetCall :=
  match resp with
  | none => (.error .refreshFailed, s, [.refresh])
  | some r =>
    let td : TokenData :=
      { access_token := r.access_token
        refresh_token := some (jsOrElse r.refresh_token rt)
        expires_at := now + r.expires_in * 1000
        scope := r.scope }
    match saveTokens saveFails td s with
    | .error _ => (.error .refreshFailed, s, [.refresh])
    | .ok s1 => (.ok (), s1, [.refresh])

deriving instance DecidableEq for Except

/-- Result of running `getValidAccessToken` up to its only suspension point
(the `await this.refreshToken(...)`). -/
inductive GvatStep1 where
  | done (r : Except AuthError String)
  | needsRefresh (rt : String) (td : TokenData)
deriving Repr, DecidableEq

/-- The synchronous prefix of `getValidAccessToken()`: load the record, fail
if absent, check `Date.now() >= expires_at - 60000`, fail if stale without a
refresh token, otherwise suspend at the refresh call. -/
def gvatStep1 (now : Int) (readFails : Bool) (s : Store) : GvatStep1 :=
  match loadTokens readFails s with
  | none => .done (.error .noTokens)
  | some td =>
    if now ≥ td.expires_at - 60000 then
      match td.refresh_token with
      | none => .done (.error .reauthRequired)
      | some rt => .needsRefresh rt td
    else
      .done (.ok td.access_token)

/-- The continuation of `getValidAccessToken()` after the suspension point:
perform the refresh, then `return this.loadTokens()!.access_token`. -/
def gvatResume (now : Int) (resp : Option TokenResponse)
    (saveFails read2Fails : Bool) (rt : String) (s : Store) :
    Except AuthError String × Store × List NetCall :=
  match refreshTokenOp now resp saveFails rt s with
  | (.error e, s1, tr) => (.error e, s1, tr)
  | (.ok _, s1, tr) =>
    match loadTokens read2Fails s1 with
    | none => (.error .nullDeref, s1, tr)
    | some td2 => (.ok td2.access_token, s1, tr)

/-- `getValidAccessToken()`, run sequentially by a single caller. -/
def getValidAccessToken (now : Int) (read1Fails : Bool)
    (resp : Option TokenResponse) (saveFails read2Fails : Bool) (s : Store) :
    Except AuthError String × Store × List NetCall :=
  match gvatStep1 now read1Fails s with
  | .done r => (r, s, [])
  | .needsRefresh rt _ => gvatResume now resp saveFails read2Fails rt s

/-- `exchangeCodeForToken(code, state)`: check the stored handshake state,
POST the code, persist the new record with
`expires_at = Date.now() + expires_in * 1000`, then clear the handshake;
any failure inside the `try` is rethrown as the exchange failure. -/
def exchangeCodeForToken (now : Int) (readTempFails : Bool)
    (resp : Option TokenResponse) (saveFails clearFails : Bool)
    (_code state : String) (s : Store) :
    Except AuthError Unit × Store × List NetCall :=
  match loadTemporaryData readTempFails s with
  | none => (.error .invalidState, s, [])
  | some tempData =>
    if tempData.state ≠ state then (.error .invalidState, s, [])
    else
      match resp with
      | none => (.error .tokenExchangeFailed, s, [.exchange])
      | some r =>
        let td : TokenData :=
          { access_token := r.access_token
            refresh_token := r.refresh_token
            expires_at := now + r.expires_in * 1000
            scope := r.scope }
        match saveTokens saveFails td s with
        | .error _ => (.error .tokenExchangeFailed, s, [.exchange])
        | .ok s1 => (.ok (), clearTemporaryData clearFails s1, [.exchange])

/-- Lower-case hex encoding of a byte list, as
`Buffer.toString('hex')` produces (`Nat.digitChar` yields `0..9a..f`). -/
def hexEncodeList (bs : List Nat) : List Char :=
  (bs.map (fun b => [Nat.digitChar (b / 16), Nat.digitChar (b % 16)])).flatten

/-- `Buffer.toString('hex')` as a string. -/
def hexEncode (bs : List Nat) : String :=
  String.mk (hexEncodeList bs)

/-- Value of one lower-case hex digit. -/
def hexDigitVal (c : Char) : Nat :=
  if 48 ≤ c.toNat ∧ c.toNat ≤ 57 then c.toNat - 48 else c.toNat - 87

/-- Inverse of `hexEncodeList` on byte lists. -/
def hexDecodeList : List Char → List Nat
  | c1 :: c2 :: rest => (hexDigitVal c1 * 16 + hexDigitVal c2) :: hexDecodeList rest
  | _ => []

/-- Inverse of `hexEncode`. -/
def hexDecode (s : String) : List Nat :=
  hexDecodeList s.data

/-- The base64url alphabet `A-Z a-z 0-9 - _` (RFC 4648 §5). -/
def b64Char (n : Nat) : Char :=
  if n < 26 then Char.ofNat (65 + n)
  else if n < 52 then Char.ofNat (97 + (n - 26))
  else if n < 62 then Char.ofNat (48 + (n - 52))
  else if n = 62 then '-'
  else '_'

/-- Value of one base64url alphabet character. -/
def b64Val (c : Char) : Nat :=
  if 65 ≤ c.toNat ∧ c.toNat ≤ 90 then c.toNat - 65
  else if 97 ≤ c.toNat ∧ c.toNat ≤ 122 then c.toNat - 97 + 26
  else if 48 ≤ c.toNat ∧ c.toNat ≤ 57 then c.toNat - 48 + 52
  else if c = '-' then 62
  else 63

/-- Unpadded base64url encoding of a byte list, as
`Buffer.toString('base64url')` produces: 3-byte groups become 4 characters,
a trailing 2-byte group 3 characters, a trailing single byte 2 characters,
and no `=` padding is appended. -/
def base64urlEncodeList : List Nat → List Char
  | [] => []
  | [a] => [b64Char (a / 4), b64Char (a % 4 * 16)]
  | [a, b] =>
    [b64Char ((a * 256 + b) / 1024), b64Char ((a * 256 + b) / 16 % 64),
     b64Char ((a * 256 + b) % 16 * 4)]
  | a :: b :: c :: rest =>
    b64Char ((a * 65536 + b * 256 + c) / 262144) ::
    b64Char ((a * 65536 + b * 256 + c) / 4096 % 64) ::
    b64Char ((a * 65536 + b * 256 + c) / 64 % 64) ::
    b64Char ((a * 65536 + b * 256 + c) % 64) ::
    base64urlEncodeList rest

/-- `Buffer.toString('base64url')` as a string. -/
def base64urlEncode (bs : List Nat) : String :=
  String.mk (base64urlEncodeList bs)

/-- Inverse of `base64urlEncodeList` on byte lists. -/
def base64urlDecodeList : List Char → List Nat
  | c1 :: c2 :: c3 :: c4 :: rest =>
    (b64Val c1 * 262144 + b64Val c2 * 4096 + b64Val c3 * 64 + b64Val c4) / 65536 ::
    (b64Val c1 * 262144 + b64Val c2 * 4096 + b64Val c3 * 64 + b64Val c4) / 256 % 256 ::
    (b64Val c1 * 262144 + b64Val c2 * 4096 + b64Val c3 * 64 + b64Val c4) % 256 ::
    base64urlDecodeList rest
  | [c1, c2] => [b64Val c1 * 4 + b64Val c2 / 16]
  | [c1, c2, c3] =>
    [(b64Val c1 * 1024 + b64Val c2 * 16 + b64Val c3 / 4) / 256,
     (b64Val c1 * 1024 + b64Val c2 * 16 + b64Val c3 / 4) % 256]
  | _ => []

/-- Inverse of `base64urlEncode`. -/
def base64urlDecode (s : String) : List Nat :=
  base64urlDecodeList s.data

/-- The fixed scope list requested by `generateAuthUrl` (`this.scopes`). -/
def spotifyScopes : List String :=
  ["user-read-private", "user-read-email", "user-library-read",
   "user-library-modify", "user-read-playback-state",
   "user-modify-playback-state", "user-read-currently-playing",
   "user-read-recently-played", "user-top-read", "playlist-read-private",
   "playlist-read-collaborative", "playlist-modify-private",
   "playlist-modify-public", "user-follow-read", "user-follow-modify"]

/-- Constructor configuration: `(clientId, clientSecret, redirectUri)`. -/
structure AuthConfig where
  clientId : String
  clientSecret : String
  redirectUri : String
deriving Repr, DecidableEq

/-- Result of `generateAuthUrl()`: the authorization URL (base plus query
parameters in `URLSearchParams` insertion order), the new store, and the
network calls issued. -/
structure GenAuthOut where
  urlBase : String
  urlParams : List (String × String)
  store : Store
  netCalls : List NetCall
deriving Repr, DecidableEq

/-- Query-parameter lookup in the returned URL. -/
def getParam (ps : List (String × String)) (k : String) : Option String :=
  match ps with
  | [] => none
  | (k', v) :: rest => if k' = k then some v else getParam rest k

/-- `generateAuthUrl()`: derive `state` from 16 random bytes (hex),
`code_verifier` from 32 random bytes (base64url),
`code_challenge = base64url(SHA-256(code_verifier))`, persist the handshake
(write errors are swallowed by `saveTemporaryData`), and return the
authorization URL. `sha256` is the abstract hash (`createHash('sha256')`),
mapping a string to its 32-byte digest. -/
def generateAuthUrl (cfg : AuthConfig) (sha256 : String → List Nat)
    (stateBytes verifierBytes : List Nat) (saveTempFails : Bool)
    (s : Store) : GenAuthOut :=
  let state := hexEncode stateBytes
  let codeVerifier := base64urlEncode verifierBytes
  let codeChallenge := base64urlEncode (sha256 codeVerifier)
  let s1 := saveTemporaryData saveTempFails ⟨state, codeVerifier⟩ s
  { urlBase := "https://accounts.spotify.com/authorize"
    urlParams :=
      [("response_type", "code"), ("client_id", cfg.clientId),
       ("scope", String.intercalate " " spotifyScopes),
       ("redirect_uri", cfg.redirectUri), ("state", state),
       ("code_challenge_method", "S256"), ("code_challenge", codeChallenge)]
    store := s1
    netCalls := [] }

/-! ### Properties of the encoders -/

theorem hexVal_digitChar : ∀ n < 16, hexDigitVal (Nat.digitChar n) = n := by
  decide

theorem hexEncodeList_cons (b : Nat) (bs : List Nat) :
    hexEncodeList (b :: bs) =
      Nat.digitChar (b / 16) :: Nat.digitChar (b % 16) :: hexEncodeList bs := rfl

/-- Hex decoding inverts hex encoding on byte lists: the encoded state loses
no entropy. -/
theorem hexDecodeList_hexEncodeList :
    ∀ bs : List Nat, (∀ b ∈ bs, b < 256) →
      hexDecodeList (hexEncodeList bs) = bs
  | [], _ => rfl
  | b :: bs, h => by
    have hb : b < 256 := h b (by simp)
    rw [hexEncodeList_cons, hexDecodeList,
      hexVal_digitChar (b / 16) (by omega), hexVal_digitChar (b % 16) (by omega),
      hexDecodeList_hexEncodeList bs (fun x hx => h x (by simp [hx]))]
    congr 1
    omega

theorem hexEncodeList_length (bs : List Nat) :
    (hexEncodeList bs).length = 2 * bs.length := by
  induction bs with
  | nil => rfl
  | cons b bs ih => rw [hexEncodeList_cons]; simp [ih]; omega

theorem b64Val_b64Char : ∀ n < 64, b64Val (b64Char n) = n := by
  decide

theorem b64Char_ne_pad : ∀ n < 64, b64Char n ≠ '=' := by
  decide

/-- Base64url decoding inverts base64url encoding on byte lists: the encoded
verifier loses no entropy. -/
theorem base64urlDecodeList_encodeList :
    ∀ bs : List Nat, (∀ b ∈ bs, b < 256) →
      base64urlDecodeList (base64urlEncodeList bs) = bs
  | [], _ => rfl
  | [a], h => by
    have ha : a < 256 := h a (by simp)
    simp only [base64urlEncodeList, base64urlDecodeList]
    rw [b64Val_b64Char (a / 4) (by omega), b64Val_b64Char (a % 4 * 16) (by omega)]
    congr 1
    omega
  | [a, b], h => by
    have ha : a < 256 := h a (by simp)
    have hb : b < 256 := h b (by simp)
    simp only [base64urlEncodeList, base64urlDecodeList]
    rw [b64Val_b64Char ((a * 256 + b) / 1024) (by omega),
      b64Val_b64Char ((a * 256 + b) / 16 % 64) (by omega),
      b64Val_b64Char ((a * 256 + b) % 16 * 4) (by omega)]
    refine List.cons_eq_cons.mpr ⟨by omega, ?_⟩
    congr 1
    omega
  | a :: b :: c :: rest, h => by
    have ha : a < 256 := h a (by simp)
    have hb : b < 256 := h b (by simp)
    have hc : c < 256 := h c (by simp)
    simp only [base64urlEncodeList, base64urlDecodeList]
    rw [b64Val_b64Char ((a * 65536 + b * 256 + c) / 262144) (by omega),
      b64Val_b64Char ((a * 65536 + b * 256 + c) / 4096 % 64) (by omega),
      b64Val_b64Char ((a * 65536 + b * 256 + c) / 64 % 64) (by omega),
      b64Val_b64Char ((a * 65536 + b * 256 + c) % 64) (by omega),
      base64urlDecodeList_encodeList rest (fun x hx => h x (by simp [hx]))]
    refine List.cons_eq_cons.mpr ⟨by omega, List.cons_eq_cons.mpr ⟨by omega,
      List.cons_eq_cons.mpr ⟨by omega, rfl⟩⟩⟩

theorem base64urlEncodeList_length :
    ∀ bs : List Nat, (base64urlEncodeList bs).length = (4 * bs.length + 2) / 3
  | [] => rfl
  | [_] => by simp [base64urlEncodeList]
  | [_, _] => by simp [base64urlEncodeList]
  | _ :: _ :: _ :: rest => by
    simp only [base64urlEncodeList, List.length_cons,
      base64urlEncodeList_length rest]
    omega

/-- The base64url encoding is unpadded: it never contains `=`. -/
theorem base64urlEncodeList_no_pad :
    ∀ bs : List Nat, (∀ b ∈ bs, b < 256) → '=' ∉ base64urlEncodeList bs
  | [], _ => by simp [base64urlEncodeList]
  | [a], h => by
    have ha : a < 256 := h a (by simp)
    intro hmem
    simp only [base64urlEncodeList, List.mem_cons, List.not_mem_nil,
      or_false] at hmem
    rcases hmem with h1 | h2
    · exact b64Char_ne_pad _ (by omega) h1.symm
    · exact b64Char_ne_pad _ (by omega) h2.symm
  | [a, b], h => by
    have ha : a < 256 := h a (by simp)
    have hb : b < 256 := h b (by simp)
    intro hmem
    simp only [base64urlEncodeList, List.mem_cons, List.not_mem_nil,
      or_false] at hmem
    rcases hmem with h1 | h2 | h3
    · exact b64Char_ne_pad _ (by omega) h1.symm
    · exact b64Char_ne_pad _ (by omega) h2.symm
    · exact b64Char_ne_pad _ (by omega) h3.symm
  | a :: b :: c :: rest, h => by
    have ha : a < 256 := h a (by simp)
    have hb : b < 256 := h b (by simp)
    have hc : c < 256 := h c (by simp)
    intro hmem
    simp only [base64urlEncodeList, List.mem_cons] at hmem
    rcases hmem with h1 | h2 | h3 | h4 | h5
    · exact b64Char_ne_pad _ (by omega) h1.symm
    · exact b64Char_ne_pad _ (by omega) h2.symm
    · exact b64Char_ne_pad _ (by omega) h3.symm
    · exact b64Char_ne_pad _ (by omega) h4.symm
    · exact base64urlEncodeList_no_pad rest (fun x hx => h x (by simp [hx])) h5

theorem hexEncode_length (bs : List Nat) :
    (hexEncode bs).length = 2 * bs.length :=
  hexEncodeList_length bs

theorem base64urlEncode_length (bs : List Nat) :
    (base64urlEncode bs).length = (4 * bs.length + 2) / 3 :=
  base64urlEncodeList_length bs

/-! ### Claim statements and proofs -/

/-- The property bundle of claim C2, for one `generateAuthUrl()` call on
random bytes `sb` (state) and `vb` (verifier): the handshake persisted
holds exactly the hex state and base64url verifier, the URL's
`code_challenge` parameter is `base64url(sha256(code_verifier))` for that
persisted verifier, the URL's `state` parameter is the persisted state, the
state is the lossless hex encoding of the 16 random bytes (32 characters),
the verifier is the lossless base64url encoding of the 32 random bytes
(43 characters, no `=` padding), and no network call is issued. -/
def C2_prop (cfg : AuthConfig) (sha256 : String → List Nat)
    (sb vb : List Nat) (s : Store) : Prop :=
  (generateAuthUrl cfg sha256 sb vb false s).store.tempFile
      = .stored ⟨hexEncode sb, base64urlEncode vb⟩ ∧
  getParam (generateAuthUrl cfg sha256 sb vb false s).urlParams "code_challenge"
      = some (base64urlEncode (sha256 (base64urlEncode vb))) ∧
  getParam (generateAuthUrl cfg sha256 sb vb false s).urlParams "state"
      = some (hexEncode sb) ∧
  (hexEncode sb).length = 32 ∧
  hexDecode (hexEncode sb) = sb ∧
  (base64urlEncode vb).length = 43 ∧
  '=' ∉ (base64urlEncode vb).data ∧
  base64urlDecode (base64urlEncode vb) = vb ∧
  (generateAuthUrl cfg sha256 sb vb false s).netCalls = []

/-- Claim C2: for every call to `generateAuthUrl()`, the `code_challenge`
query parameter of the returned URL equals `base64url(SHA-256(code_verifier))`
unpadded, where `code_verifier` is the verifier persisted in the resulting
HandshakeRecord; the persisted state equals the `state` query parameter; the
state carries at least 16 bytes of entropy (hex of 16 random bytes, losslessly
decodable) and the verifier at least 32 bytes base64url-encoded without
padding; and the call performs no network I/O. -/
theorem C2_generateAuthUrl_pkce (cfg : AuthConfig)
    (sha256 : String → List Nat) (sb vb : List Nat) (s : Store)
    (hsblen : sb.length = 16) (hsb : ∀ b ∈ sb, b < 256)
    (hvblen : vb.length = 32) (hvb : ∀ b ∈ vb, b < 256) :
    C2_prop cfg sha256 sb vb s := by
  refine ⟨rfl, rfl, rfl, ?_, ?_, ?_, ?_, ?_, rfl⟩
  · rw [hexEncode_length, hsblen]
  · exact hexDecodeList_hexEncodeList sb hsb
  · rw [base64urlEncode_length, hvblen]
  · exact base64urlEncodeList_no_pad vb hvb
  · exact base64urlDecodeList_encodeList vb hvb

/-- Concrete inputs for witnesses: a configuration, an abstract digest
function, 16 state bytes and 32 verifier bytes. -/
def cfgW : AuthConfig :=
  { clientId := "client-id", clientSecret := "client-secret",
    redirectUri := "http://localhost:8888/callback" }

/-- A stand-in digest function for witnesses (the digest is abstract in the
model; only its 32-byte type matters). -/
def shaW : String → List Nat := fun _ => List.replicate 32 0

/-- 16 concrete state bytes. -/
def sbW : List Nat := List.replicate 16 5

/-- 32 concrete verifier bytes. -/
def vbW : List Nat := List.replicate 32 7

/-- Witness for C2 at concrete inputs. -/
theorem C2_witness : C2_prop cfgW shaW sbW vbW ⟨.absent, .absent⟩ :=
  C2_generateAuthUrl_pkce cfgW shaW sbW vbW ⟨.absent, .absent⟩
    (by decide) (by decide) (by decide) (by decide)

/-- A stale-but-refreshable stored credential for the C1 counterexample:
`expires_at = 1000000`, refresh token present. -/
def tdC1 : TokenData :=
  { access_token := "old-token", refresh_token := some "rt-1",
    expires_at := 1000000, scope := "sc" }

/-- Store holding `tdC1`. -/
def storeC1 : Store := ⟨.stored tdC1, .absent⟩

/-- A refresh response whose `expires_in` is `0` seconds. -/
def respC1 : TokenResponse :=
  { access_token := "new-token", refresh_token := none,
    expires_in := 0, scope := "sc" }

/-- Counterexample to C1's final clause ("it never returns a token at or
past `expires_at` minus the 60-second skew margin"): at `now = 1000000`,
with the stored token stale and a refresh that answers `expires_in = 0`,
`getValidAccessToken` succeeds with the new token, yet the record it was
read back from has `expires_at = 1000000 = now`, so the returned token is
already at/past `expires_at - 60000`. -/
theorem C1_counterexample :
    (getValidAccessToken 1000000 false (some respC1) false false storeC1).1
      = .ok "new-token" ∧
    (getValidAccessToken 1000000 false (some respC1) false false storeC1).2.1.tokenFile
      = .stored ⟨"new-token", some "rt-1", 1000000, "sc"⟩ ∧
    ¬ ((1000000 : Int) < 1000000 - 60000) := by
  refine ⟨rfl, rfl, by decide⟩

/-- The property bundle of the amended claim C1. First conjunct: when
`now < expires_at - 60000`, the stored access token is returned unchanged
with no refresh and no write. Second conjunct: when
`now ≥ expires_at - 60000` and a refresh token is present, exactly one
refresh call is issued, the renewed record is persisted, the new access
token is returned — and that returned token is itself ahead of the skew
margin provided the refresh response's `expires_in` exceeds 60 seconds. -/
def C1_prop (now : Int) (td : TokenData) (rt : String)
    (resp : Option TokenResponse) (r : TokenResponse) (s : Store) : Prop :=
  (now < td.expires_at - 60000 →
    getValidAccessToken now false resp false false s
      = (.ok td.access_token, s, [])) ∧
  (now ≥ td.expires_at - 60000 → td.refresh_token = some rt →
    getValidAccessToken now false (some r) false false s
      = (.ok r.access_token,
         { s with tokenFile := .stored ⟨r.access_token,
             some (jsOrElse r.refresh_token rt),
             now + r.expires_in * 1000, r.scope⟩ },
         [.refresh]) ∧
    (r.expires_in * 1000 > 60000 → now < (now + r.expires_in * 1000) - 60000))

/-- Amended claim C1: as stated, except that the final "never returns a
token at or past `expires_at - 60000`" holds unconditionally only for the
non-refresh branch; for the refresh branch it holds whenever the refresh
response's `expires_in` exceeds the 60-second skew (the code re-reads and
returns the freshly saved token without re-checking its expiry). -/
theorem C1_amended (now : Int) (td : TokenData) (rt : String)
    (resp : Option TokenResponse) (r : TokenResponse) (s : Store)
    (hstored : s.tokenFile = .stored td) :
    C1_prop now td rt resp r s := by
  have hload : loadTokens false s = some td := by
    simp [loadTokens, hstored, FileContent.load]
  constructor
  · intro h
    have hstep : gvatStep1 now false s = .done (.ok td.access_token) := by
      simp only [gvatStep1, hload]
      rw [if_neg (by omega)]
    simp [getValidAccessToken, hstep]
  · intro h hrt
    have hstep : gvatStep1 now false s = .needsRefresh rt td := by
      simp only [gvatStep1, hload]
      rw [if_pos (by omega), hrt]
    refine ⟨?_, fun hexp => by omega⟩
    simp [getValidAccessToken, hstep, gvatResume, refreshTokenOp, saveTokens,
      loadTokens, FileContent.load]

/-- Witness for the amended C1 at concrete inputs. -/
theorem C1_witness :
    C1_prop 1000000 tdC1 "rt-1" (some respC1) respC1 storeC1 :=
  C1_amended 1000000 tdC1 "rt-1" (some respC1) respC1 storeC1 rfl

/-- The property bundle of claim C3, for an `exchangeCodeForToken(code, state)`
call whose `state` matches the stored handshake. Success branch: the new
credential record with `expires_at = now + expires_in * 1000` is persisted,
the handshake file is cleared (no longer loadable), and exactly one exchange
call is issued. Failure branch: the call fails with the exchange error and
the store — handshake included — is exactly unchanged. -/
def C3_prop (now : Int) (r : TokenResponse) (code st : String)
    (s : Store) : Prop :=
  (exchangeCodeForToken now false (some r) false false code st s
      = (.ok (),
         ⟨.stored ⟨r.access_token, r.refresh_token,
            now + r.expires_in * 1000, r.scope⟩, .empty⟩,
         [.exchange]) ∧
   loadTemporaryData false
       (exchangeCodeForToken now false (some r) false false code st s).2.1
      = none) ∧
  exchangeCodeForToken now false none false false code st s
      = (.error .tokenExchangeFailed, s, [.exchange])

/-- Claim C3: for every `exchangeCodeForToken(code, state)` call whose state
matches the stored HandshakeRecord — if the token-endpoint call succeeds, a
new CredentialRecord with `expires_at = now + expires_in*1000` is persisted
and the HandshakeRecord is deleted (single-use); if the token-endpoint call
fails, the operation fails with the exchange failure and the HandshakeRecord
is left intact. -/
theorem C3_exchange_outcome (now : Int) (r : TokenResponse)
    (code st : String) (s : Store) (h : TempData)
    (htemp : s.tempFile = .stored h) (hstate : h.state = st) :
    C3_prop now r code st s := by
  have hload : loadTemporaryData false s = some h := by
    simp [loadTemporaryData, htemp, FileContent.load]
  refine ⟨⟨?_, ?_⟩, ?_⟩ <;>
    simp [exchangeCodeForToken, hload, hstate, saveTokens,
      clearTemporaryData, htemp, loadTemporaryData, FileContent.load]

/-- A stored handshake for witnesses. -/
def tempW : TempData := ⟨"state-1", "verifier-1"⟩

/-- A store holding only the handshake `tempW`. -/
def storeTempW : Store := ⟨.absent, .stored tempW⟩

/-- A successful token-endpoint response for witnesses. -/
def respW : TokenResponse :=
  { access_token := "tok-1", refresh_token := some "rt-1",
    expires_in := 3600, scope := "sc" }

/-- Witness for C3 at concrete inputs. -/
theorem C3_witness : C3_prop 500 respW "code-1" "state-1" storeTempW :=
  C3_exchange_outcome 500 respW "code-1" "state-1" storeTempW tempW rfl rfl

/-- Claim C4: for every `exchangeCodeForToken(code, state)` call, if no
HandshakeRecord exists (file absent, empty — or unreadable, which the code
folds into "none") or the supplied state differs from the stored one, the
operation fails with the invalid-state error, and the store — credential
record and handshake alike — is exactly unchanged, with no network call. -/
theorem C4_invalid_state (now : Int) (resp : Option TokenResponse)
    (sf cf : Bool) (code st : String) (s : Store) (h : TempData)
    (hcase : s.tempFile.load = none ∨ (s.tempFile = .stored h ∧ h.state ≠ st)) :
    exchangeCodeForToken now false resp sf cf code st s
      = (.error .invalidState, s, []) := by
  rcases hcase with hnone | ⟨hstored, hne⟩
  · simp [exchangeCodeForToken, loadTemporaryData, hnone]
  · simp [exchangeCodeForToken, loadTemporaryData, hstored,
      FileContent.load, hne]

/-- Witness for C4: a store whose handshake state is `"state-1"`, called
with the mismatching state `"evil"`. -/
theorem C4_witness :
    exchangeCodeForToken 500 false (some respW) false false "code-1" "evil"
        storeTempW
      = (.error .invalidState, storeTempW, []) :=
  C4_invalid_state 500 (some respW) false false "code-1" "evil" storeTempW
    tempW (Or.inr ⟨rfl, by decide⟩)

/-- The property bundle of claim C5: a stale record without refresh token
fails with the re-authorization error, and a missing record fails with the
not-authenticated error; in both cases the store is unchanged and no network
call is made. -/
def C5_prop (now : Int) (resp : Option TokenResponse) (sf rf : Bool)
    (s s2 : Store) : Prop :=
  getValidAccessToken now false resp sf rf s
      = (.error .reauthRequired, s, []) ∧
  getValidAccessToken now false resp sf rf s2
      = (.error .noTokens, s2, [])

/-- Claim C5: for every stored CredentialRecord with
`now ≥ expires_at - 60000` and no refresh token, `getValidAccessToken()`
fails with the re-authorization error; and when no CredentialRecord exists,
it fails with the not-authenticated error. -/
theorem C5_stale_paths (now : Int) (resp : Option TokenResponse)
    (sf rf : Bool) (td : TokenData) (s s2 : Store)
    (h1 : s.tokenFile = .stored td) (h2 : now ≥ td.expires_at - 60000)
    (h3 : td.refresh_token = none) (h4 : s2.tokenFile.load = none) :
    C5_prop now resp sf rf s s2 := by
  constructor
  · have hload : loadTokens false s = some td := by
      simp [loadTokens, h1, FileContent.load]
    have hstep : gvatStep1 now false s = .done (.error .reauthRequired) := by
      simp only [gvatStep1, hload]
      rw [if_pos (by omega), h3]
    simp [getValidAccessToken, hstep]
  · have hstep : gvatStep1 now false s2 = .done (.error .noTokens) := by
      simp [gvatStep1, loadTokens, h4]
    simp [getValidAccessToken, hstep]

/-- A stale credential without refresh token, for witnesses. -/
def tdNoRt : TokenData :=
  { access_token := "tok-stale", refresh_token := none,
    expires_at := 1000, scope := "sc" }

/-- Witness for C5 at concrete inputs: a stale record without refresh token
and an empty store. -/
theorem C5_witness :
    C5_prop 100000 none false false ⟨.stored tdNoRt, .absent⟩ ⟨.empty, .absent⟩ :=
  C5_stale_paths 100000 none false false tdNoRt
    ⟨.stored tdNoRt, .absent⟩ ⟨.empty, .absent⟩ rfl (by decide) rfl rfl

/-- Claim C10 (implicit): for every stored CredentialRecord with a refresh
token, if the refresh network call inside `getValidAccessToken()` fails, the
operation raises the refresh failure and the store — including the stale
access token, refresh token and `expires_at` — is left exactly as it was:
refresh is atomic on error (exactly one refresh call was attempted). -/
theorem C10_refresh_failure_atomic (now : Int) (sf rf : Bool)
    (td : TokenData) (rt : String) (s : Store)
    (h1 : s.tokenFile = .stored td) (h2 : now ≥ td.expires_at - 60000)
    (h3 : td.refresh_token = some rt) :
    getValidAccessToken now false none sf rf s
      = (.error .refreshFailed, s, [.refresh]) := by
  have hload : loadTokens false s = some td := by
    simp [loadTokens, h1, FileContent.load]
  have hstep : gvatStep1 now false s = .needsRefresh rt td := by
    simp only [gvatStep1, hload]
    rw [if_pos (by omega), h3]
  simp [getValidAccessToken, hstep, gvatResume, refreshTokenOp]

/-- Witness for C10 at concrete inputs. -/
theorem C10_witness :
    getValidAccessToken 2000000 false none false false ⟨.stored tdC1, .absent⟩
      = (.error .refreshFailed, ⟨.stored tdC1, .absent⟩, [.refresh]) :=
  C10_refresh_failure_atomic 2000000 false false tdC1 "rt-1"
    ⟨.stored tdC1, .absent⟩ rfl (by decide) rfl

/-- A fully populated store (valid credential and handshake) used to exhibit
the swallowed storage failures of claim C6. -/
def storeC6 : Store :=
  ⟨.stored ⟨"tok-live", some "rt-live", 999999999999, "sc"⟩,
   .stored ⟨"st-live", "cv-live"⟩⟩

/-- Counterexample to C6 ("every persistence error is surfaced as a storage
failure; a failed credential read does not silently behave as if no record
existed, a failed handshake write does not silently behave as if it
succeeded"): with a live credential stored, a throwing read makes
`loadTokens` return "no record", and `getValidAccessToken` consequently
fails with the not-authenticated error — not a storage failure; and a
throwing handshake write makes `generateAuthUrl` return normally with
nothing persisted. -/
theorem C6_counterexample :
    storeC6.tokenFile.load.isSome = true ∧
    loadTokens true storeC6 = none ∧
    (getValidAccessToken 0 true none false false storeC6).1
      = .error .noTokens ∧
    (generateAuthUrl cfgW shaW sbW vbW true storeC6).store = storeC6 := by
  refine ⟨rfl, rfl, rfl, rfl⟩

/-- The property bundle of the amended claim C6: how each storage primitive
actually treats a thrown filesystem error. Reads (`loadTokens`,
`loadTemporaryData`) swallow the error and report "no record"; the handshake
write (`saveTemporaryData`, also via `generateAuthUrl`) and the credential
clear (`clearTokens`) swallow the error and leave the store unchanged; only
the credential write (`saveTokens`) surfaces it. -/
def C6_prop (t : TokenData) (d : TempData) (s : Store) (cfg : AuthConfig)
    (sha256 : String → List Nat) (sb vb : List Nat) : Prop :=
  loadTokens true s = none ∧
  loadTemporaryData true s = none ∧
  clearTokens true s = s ∧
  saveTemporaryData true d s = s ∧
  (generateAuthUrl cfg sha256 sb vb true s).store = s ∧
  saveTokens true t s = .error .saveTokensFailed

/-- Amended claim C6: of the Secret Store primitives, only the credential
write (`saveTokens`) surfaces a local persistence error to the caller; a
failed credential or handshake read silently behaves as if no record
existed, and a failed handshake write or credential clear silently behaves
as if nothing had to be written. -/
theorem C6_amended (t : TokenData) (d : TempData) (s : Store)
    (cfg : AuthConfig) (sha256 : String → List Nat) (sb vb : List Nat) :
    C6_prop t d s cfg sha256 sb vb := by
  refine ⟨rfl, rfl, ?_, rfl, ?_, rfl⟩
  · cases s with
    | mk tok temp => cases tok <;> rfl
  · cases s with
    | mk tok temp => rfl

/-- Two concurrent `getValidAccessToken()` callers A and B, interleaved at
the only suspension point of the source (`await this.refreshToken(...)`):
A runs its synchronous prefix, and if it suspends at the refresh call, B
then runs to completion before A's refresh response arrives and A resumes.
Returns both results, the final store, and all network calls issued. -/
def gvatTwoInterleaved (now : Int) (respA respB : Option TokenResponse)
    (s : Store) :
    (Except AuthError String × Except AuthError String) × Store × List NetCall :=
  match gvatStep1 now false s with
  | .done rA =>
    match getValidAccessToken now false respB false false s with
    | (rB, s1, trB) => ((rA, rB), s1, trB)
  | .needsRefresh rtA _ =>
    match getValidAccessToken now false respB false false s with
    | (rB, s1, trB) =>
      match gvatResume now respA false false rtA s1 with
      | (rA, s2, trA) => ((rA, rB), s2, trB ++ trA)

/-- A stale-but-refreshable credential for the C7 counterexample. -/
def tdC7 : TokenData :=
  { access_token := "old", refresh_token := some "rt-0",
    expires_at := 1000, scope := "sc" }

/-- Refresh response served to caller A. -/
def respA7 : TokenResponse :=
  { access_token := "tok-A", refresh_token := some "rt-A",
    expires_in := 3600, scope := "sc" }

/-- Refresh response served to caller B. -/
def respB7 : TokenResponse :=
  { access_token := "tok-B", refresh_token := some "rt-B",
    expires_in := 3600, scope := "sc" }

/-- Counterexample to C7 ("at most one network refresh call is issued, and
both calls return the same renewed access token"): two interleaved callers
on the same expiring record issue two refresh calls and return different
tokens. -/
theorem C7_counterexample :
    gvatTwoInterleaved 100000 (some respA7) (some respB7)
        ⟨.stored tdC7, .absent⟩
      = ((.ok "tok-A", .ok "tok-B"),
         ⟨.stored ⟨"tok-A", some "rt-A", 3700000, "sc"⟩, .absent⟩,
         [.refresh, .refresh]) ∧
    ((gvatTwoInterleaved 100000 (some respA7) (some respB7)
        ⟨.stored tdC7, .absent⟩).2.2.count .refresh = 2) ∧
    ¬ ((Except.ok "tok-A" : Except AuthError String) = .ok "tok-B") := by
  refine ⟨rfl, rfl, by decide⟩

/-- The property bundle of the amended claim C7: in the interleaved
execution, each caller issues its own refresh call (two in total) and each
returns the access token of its own refresh response; the record persisted
last (caller A's) wins. -/
def C7_prop (now : Int) (rtOld : String) (ra rb : TokenResponse)
    (s : Store) : Prop :=
  gvatTwoInterleaved now (some ra) (some rb) s
    = ((.ok ra.access_token, .ok rb.access_token),
       { s with tokenFile := .stored ⟨ra.access_token,
           some (jsOrElse ra.refresh_token rtOld),
           now + ra.expires_in * 1000, ra.scope⟩ },
       [.refresh, .refresh])

/-- Amended claim C7: the code has no pending-refresh guard, so two
concurrent `getValidAccessToken()` calls inside the expiry/skew window with
a refresh token present each issue one network refresh call (two in total),
and each returns the access token of its own refresh response — they agree
only if the remote answers both with the same token. -/
theorem C7_amended (now : Int) (td : TokenData) (rtOld : String)
    (ra rb : TokenResponse) (s : Store)
    (h1 : s.tokenFile = .stored td) (h2 : now ≥ td.expires_at - 60000)
    (h3 : td.refresh_token = some rtOld) :
    C7_prop now rtOld ra rb s := by
  have hload : loadTokens false s = some td := by
    simp [loadTokens, h1, FileContent.load]
  have hstep : gvatStep1 now false s = .needsRefresh rtOld td := by
    simp only [gvatStep1, hload]
    rw [if_pos (by omega), h3]
  simp [C7_prop, gvatTwoInterleaved, hstep, getValidAccessToken, gvatResume,
    refreshTokenOp, saveTokens, loadTokens, FileContent.load]

/-- Witness for the amended C7 at concrete inputs. -/
theorem C7_witness :
    C7_prop 100000 "rt-0" respA7 respB7 ⟨.stored tdC7, .absent⟩ :=
  C7_amended 100000 tdC7 "rt-0" respA7 respB7 ⟨.stored tdC7, .absent⟩
    rfl (by decide) rfl

/-- Claim C8: `clearAuth()` (the source's `clearTokens`) is idempotent and
is a no-op success on a store with no credential file; after a (successful)
clear, `isAuthenticated()` is false and `getValidAccessToken()` fails with
the not-authenticated error, whatever the oracles. -/
theorem C8_clearAuth (now : Int) (resp : Option TokenResponse)
    (sf rf : Bool) (s : Store) (tf : FileContent TempData) :
    clearTokens false (clearTokens false s) = clearTokens false s ∧
    isAuthenticated false (clearTokens false s) = false ∧
    getValidAccessToken now false resp sf rf (clearTokens false s)
      = (.error .noTokens, clearTokens false s, []) ∧
    clearTokens false ⟨.absent, tf⟩ = ⟨.absent, tf⟩ := by
  have hload : loadTokens false (clearTokens false s) = none := by
    cases s with
    | mk tok temp => cases tok <;> simp [clearTokens, loadTokens, FileContent.load]
  refine ⟨?_, ?_, ?_, rfl⟩
  · cases s with
    | mk tok temp => cases tok <;> simp [clearTokens]
  · simp [isAuthenticated, hload]
  · have hstep : gvatStep1 now false (clearTokens false s)
        = .done (.error .noTokens) := by
      simp [gvatStep1, hload]
    simp [getValidAccessToken, hstep]

/-- Claim C9: `clearAuth()` never touches the handshake file — under any
write-failure oracle the handshake slot is unchanged and still loads the
same record — and a handshake persisted by a prior `generateAuthUrl()` is
still loadable after a clear. -/
theorem C9_clearAuth_frame (wf rfl2 : Bool) (s : Store) (cfg : AuthConfig)
    (sha256 : String → List Nat) (sb vb : List Nat) :
    (clearTokens wf s).tempFile = s.tempFile ∧
    loadTemporaryData rfl2 (clearTokens wf s) = loadTemporaryData rfl2 s ∧
    loadTemporaryData false
        (clearTokens wf (generateAuthUrl cfg sha256 sb vb false s).store)
      = some ⟨hexEncode sb, base64urlEncode vb⟩ := by
  have hframe : ∀ s' : Store, (clearTokens wf s').tempFile = s'.tempFile := by
    intro s'
    cases s' with
    | mk tok temp => cases tok <;> cases wf <;> simp [clearTokens]
  refine ⟨hframe s, ?_, ?_⟩
  · simp [loadTemporaryData, hframe s]
  · simp [loadTemporaryData, hframe, generateAuthUrl, saveTemporaryData,
      FileContent.load]

end MusicMcp
